import Mathlib

/-!
Verification development for the Montreal pickleball court finder
(`pickleball_search.py`).

The Python source is shallowly embedded below:

* `Json` models Python values produced by `json.loads`; JSON numbers are
  modelled as exact rationals (IEEE-754 double rounding is not modelled;
  no property below depends on it).
* Python dynamic operations used by the source (`dict.get`, iteration,
  truthiness, indexing, `"%.2f"` formatting) are modelled as `Except Unit`
  computations, where `.error ()` stands for "a Python exception was
  raised".
* `datetime.now()` is modelled by passing the current calendar date
  (`today`) and the already-formatted elapsed-time string (`elapsed`) as
  explicit parameters.
* The HTTP layer (`requests`) is modelled by the `Transport` type: the
  observable outcomes of the `session.post` / `raise_for_status` pair as
  the source distinguishes them.
* Character classes from the source's regular expressions are compiled to
  conditions on `Char.toNat`; `\d` is modelled as the ASCII digits
  (Python's `\d` also accepts non-ASCII Unicode digits, which no claim
  exercises).
-/

/-- ASCII digit test: the regex class `[0-9]` (and our model of `\d`). -/
def isAsciiDigit (c : Char) : Bool := 48 ≤ c.toNat && c.toNat ≤ 57

/-- Numeric value of an ASCII digit character. -/
def digitVal (c : Char) : Nat := c.toNat - 48

/-- Value of a string of ASCII digits, most significant first
(`int()` on a digit string). -/
def digitsVal (l : List Char) : Nat := l.foldl (fun a c => 10 * a + digitVal c) 0

/-- Model of Python values decoded from JSON (`json.loads` output).
Numbers are exact rationals. -/
inductive Json where
  | null : Json
  | bool (b : Bool) : Json
  | num (q : Rat) : Json
  | str (s : String) : Json
  | arr (elems : List Json) : Json
  | obj (fields : List (String × Json)) : Json

/-- JSON whitespace accepted between tokens by `json.loads`. -/
def jsonWs (c : Char) : Bool := c = ' ' || c = '\t' || c = '\n' || c = '\r'

/-- Drop leading JSON whitespace. -/
def skipWs : List Char → List Char
  | [] => []
  | c :: rest => if jsonWs c then skipWs rest else c :: rest

/-- Longest ASCII-digit run at the front of the list. -/
def takeDigits : List Char → (List Char × List Char)
  | [] => ([], [])
  | c :: rest =>
    if isAsciiDigit c then
      let (ds, r) := takeDigits rest
      (c :: ds, r)
    else ([], c :: rest)

/-- Scale a natural mantissa by ten to an integer power, as an exact
rational (kept in kernel-computable `mkRat` form). -/
def scalePow10 (m : Nat) (z : Int) : Rat :=
  if 0 ≤ z then ((m * 10 ^ z.toNat : Nat) : Int) else mkRat m (10 ^ (-z).toNat)

/-- JSON number grammar `-? (0 | [1-9][0-9]*) ('.' [0-9]+)? ([eE][+-]?[0-9]+)?`,
returning its exact rational value and the unconsumed input.
(Python's `json` extension literals `NaN`/`Infinity` are not modelled; no
claim exercises them.) -/
def parseNumber (l : List Char) : Option (Rat × List Char) :=
  let (neg, l1) := match l with
    | '-' :: r => (true, r)
    | _ => (false, l)
  match takeDigits l1 with
  | ([], _) => none
  | (ds, l2) =>
    if ds.length > 1 && ds.headD '0' = '0' then none
    else
      let fracStep : Option (List Char × List Char) := match l2 with
        | '.' :: r =>
          match takeDigits r with
          | ([], _) => none
          | (fs, r2) => some (fs, r2)
        | _ => some ([], l2)
      match fracStep with
      | none => none
      | some (fs, l3) =>
        let expStep : Option (Int × List Char) := match l3 with
          | 'e' :: r => parseExp r
          | 'E' :: r => parseExp r
          | _ => some (0, l3)
        match expStep with
        | none => none
        | some (e, l4) =>
          let value := scalePow10 (digitsVal (ds ++ fs)) (e - fs.length)
          some (if neg then -value else value, l4)
where
  /-- Exponent part after `e`/`E`: optional sign then digits. -/
  parseExp (r : List Char) : Option (Int × List Char) :=
    let (esign, r1) : (Bool × List Char) := match r with
      | '+' :: t => (false, t)
      | '-' :: t => (true, t)
      | _ => (false, r)
    match takeDigits r1 with
    | ([], _) => none
    | (es, r2) =>
      let ev : Int := (digitsVal es : Nat)
      some (if esign then -ev else ev, r2)

/-- Hex digit value for `\uXXXX` escapes. -/
def hexVal (c : Char) : Option Nat :=
  if 48 ≤ c.toNat && c.toNat ≤ 57 then some (c.toNat - 48)
  else if 97 ≤ c.toNat && c.toNat ≤ 102 then some (c.toNat - 87)
  else if 65 ≤ c.toNat && c.toNat ≤ 70 then some (c.toNat - 55)
  else none

/-- Decoded character for a single-character escape `\\e` in a JSON
string (the `\\u` escape is handled separately). -/
def escSimple (e : Char) : Option Char :=
  if e = '"' then some '"'
  else if e = '\\' then some '\\'
  else if e = '/' then some '/'
  else if e = 'b' then some (Char.ofNat 8)
  else if e = 'f' then some (Char.ofNat 12)
  else if e = 'n' then some '\n'
  else if e = 'r' then some '\r'
  else if e = 't' then some '\t'
  else none

/-- Body of a JSON string after the opening quote: returns the decoded
characters and the input after the closing quote.  Escapes are decoded;
`\uXXXX` pairs forming surrogates are not combined (a simplification no
claim exercises); unescaped control characters are rejected as in
Python's strict default. -/
def strChars : List Char → Option (List Char × List Char)
  | [] => none
  | '"' :: rest => some ([], rest)
  | '\\' :: e :: rest =>
    if e = 'u' then
      match rest with
      | a :: b :: c :: d :: rest2 =>
        match hexVal a, hexVal b, hexVal c, hexVal d with
        | some ha, some hb, some hc, some hd =>
          (match strChars rest2 with
           | some (cs, r) =>
             some (Char.ofNat (((ha * 16 + hb) * 16 + hc) * 16 + hd) :: cs, r)
           | none => none)
        | _, _, _, _ => none
      | _ => none
    else
      match escSimple e with
      | some ch =>
        (match strChars rest with
         | some (cs, r) => some (ch :: cs, r)
         | none => none)
      | none => none
  | c :: rest =>
    if c.toNat < 32 then none
    else
      match strChars rest with
      | some (cs, r) => some (c :: cs, r)
      | none => none

mutual

/-- One JSON value (fuelled recursive-descent model of `json.loads`'s
scanner), returning the value and the unconsumed input. -/
def parseValue : Nat → List Char → Option (Json × List Char)
  | 0, _ => none
  | fuel + 1, l =>
    match skipWs l with
    | 'n' :: 'u' :: 'l' :: 'l' :: rest => some (.null, rest)
    | 't' :: 'r' :: 'u' :: 'e' :: rest => some (.bool true, rest)
    | 'f' :: 'a' :: 'l' :: 's' :: 'e' :: rest => some (.bool false, rest)
    | '"' :: rest =>
      match strChars rest with
      | some (cs, r) => some (.str (String.mk cs), r)
      | none => none
    | '[' :: rest =>
      (match skipWs rest with
       | ']' :: r => some (.arr [], r)
       | other => match parseElems fuel other with
         | some (vs, r) => some (.arr vs, r)
         | none => none)
    | '\x7b' :: rest =>
      (match skipWs rest with
       | '\x7d' :: r => some (.obj [], r)
       | other => match parseMembers fuel other with
         | some (fs, r) => some (.obj fs, r)
         | none => none)
    | other =>
      match parseNumber other with
      | some (q, r) => some (.num q, r)
      | none => none
termination_by structural fuel => fuel

/-- Comma-separated JSON values up to a closing bracket. -/
def parseElems : Nat → List Char → Option (List Json × List Char)
  | 0, _ => none
  | fuel + 1, l =>
    match parseValue fuel l with
    | none => none
    | some (v, r) =>
      match skipWs r with
      | ',' :: r2 =>
        (match parseElems fuel r2 with
         | some (vs, r3) => some (v :: vs, r3)
         | none => none)
      | ']' :: r2 => some ([v], r2)
      | _ => none
termination_by structural fuel => fuel

/-- Comma-separated `"key": value` members up to a closing brace. -/
def parseMembers : Nat → List Char → Option (List (String × Json) × List Char)
  | 0, _ => none
  | fuel + 1, l =>
    match skipWs l with
    | '"' :: rest =>
      (match strChars rest with
       | none => none
       | some (kcs, r) =>
         match skipWs r with
         | ':' :: r2 =>
           (match parseValue fuel r2 with
            | none => none
            | some (v, r3) =>
              match skipWs r3 with
              | ',' :: r4 =>
                (match parseMembers fuel r4 with
                 | some (fs, r5) => some ((String.mk kcs, v) :: fs, r5)
                 | none => none)
              | '\x7d' :: r4 => some ([(String.mk kcs, v)], r4)
              | _ => none)
         | _ => none)
    | _ => none
termination_by structural fuel => fuel

end

/-- Model of `json.loads` on the response text: rejects a leading
byte-order-mark (CPython raises "Unexpected UTF-8 BOM"), parses exactly
one value, and requires only whitespace after it.  `none` stands for a
raised `json.JSONDecodeError`. -/
def jsonLoads (s : String) : Option Json :=
  match s.data with
  | [] => none
  | c :: _ =>
    if c = '\uFEFF' then none
    else
      match parseValue (s.data.length + 1) s.data with
      | some (v, rest) => if skipWs rest = [] then some v else none
      | none => none

/-! ## Input validators (`_validate_date`, `_validate_time`) -/

/-- Split a character list at every occurrence of `sep`
(the decomposition induced by the literal `-` separators of the
`"%Y-%m-%d"` format). -/
def splitOnSep (sep : Char) : List Char → List (List Char)
  | [] => [[]]
  | c :: rest =>
    if c = sep then [] :: splitOnSep sep rest
    else
      match splitOnSep sep rest with
      | h :: t => (c :: h) :: t
      | [] => [[c]]

/-- Full match of CPython's strptime `%m` pattern `(1[0-2]|0[1-9]|[1-9])`
against a whole token, returning the month value.  Character classes are
expressed on code points: `'0'` is 48, …, `'9'` is 57. -/
def matchMonth : List Char → Option Nat
  | [a] => if 49 ≤ a.toNat && a.toNat ≤ 57 then some (digitVal a) else none
  | [a, b] =>
    if a.toNat = 49 && (48 ≤ b.toNat && b.toNat ≤ 50) then some (10 + digitVal b)
    else if a.toNat = 48 && (49 ≤ b.toNat && b.toNat ≤ 57) then some (digitVal b)
    else none
  | _ => none

/-- Full match of CPython's strptime `%d` pattern
`(3[01]|[12]\d|0[1-9]|[1-9])` against a whole token, returning the day
value. -/
def matchDay : List Char → Option Nat
  | [a] => if 49 ≤ a.toNat && a.toNat ≤ 57 then some (digitVal a) else none
  | [a, b] =>
    if a.toNat = 51 && (48 ≤ b.toNat && b.toNat ≤ 49) then some (30 + digitVal b)
    else if (49 ≤ a.toNat && a.toNat ≤ 50) && (48 ≤ b.toNat && b.toNat ≤ 57) then
      some (10 * digitVal a + digitVal b)
    else if a.toNat = 48 && (49 ≤ b.toNat && b.toNat ≤ 57) then some (digitVal b)
    else none
  | _ => none

/-- Gregorian leap-year rule used by `datetime.date`. -/
def leapYear (y : Nat) : Bool := y % 4 = 0 && (y % 100 ≠ 0 || y % 400 = 0)

/-- Days in a month per `datetime.date`'s validity check. -/
def daysInMonth (y m : Nat) : Nat :=
  if m = 2 then (if leapYear y then 29 else 28)
  else if m = 4 || m = 6 || m = 9 || m = 11 then 30
  else 31

/-- The strptime `%Y` pattern: exactly four digits. -/
def yearOk (ys : List Char) : Bool := ys.length = 4 && ys.all isAsciiDigit

/-- Model of `datetime.strptime(s, "%Y-%m-%d").date()`.

CPython compiles the format to the anchored regex
`(?P<Y>\d\d\d\d)\-(?P<m>1[0-2]|0[1-9]|[1-9])\-(?P<d>3[01]|[12]\d|0[1-9]|[1-9])`,
requires the match to consume the whole string, and then constructs
`datetime.date(Y, m, d)`, which raises `ValueError` unless
`1 <= Y <= 9999`, the month is valid and the day fits the month.  Since
the `%m`/`%d` sub-languages contain only digits and `%Y` is exactly four
digits, a whole-string match is exactly a decomposition at the two `-`
separators with each token fully matching its pattern. -/
def strptimeYmd (s : String) : Option (Nat × Nat × Nat) :=
  match splitOnSep '-' s.data with
  | [ys, ms, ds] =>
    if yearOk ys then
      match matchMonth ms, matchDay ds with
      | some m, some d =>
        let y := digitsVal ys
        if 1 ≤ y && d ≤ daysInMonth y m then some (y, m, d) else none
      | _, _ => none
    else none
  | _ => none

/-- Model of `PickleballSearcher._validate_date`: `datetime.strptime`
succeeds on the `"%Y-%m-%d"` format. -/
def _validate_date (s : String) : Bool := (strptimeYmd s).isSome

/-- The single-digit-hour branch `[0-1]?[0-9]` of the time regex, matching
one character (the optional `[0-1]` matched empty). -/
def hour1 (a : Char) : Bool := 48 ≤ a.toNat && a.toNat ≤ 57

/-- The two-character hour alternatives of the time regex:
`[0-1][0-9]` or `2[0-3]`. -/
def hour2 (a b : Char) : Bool :=
  (48 ≤ a.toNat && a.toNat ≤ 49 && (48 ≤ b.toNat && b.toNat ≤ 57)) ||
  (a.toNat = 50 && (48 ≤ b.toNat && b.toNat ≤ 51))

/-- The minutes part `[0-5][0-9]` of the time regex. -/
def minOk (m1 m2 : Char) : Bool :=
  48 ≤ m1.toNat && m1.toNat ≤ 53 && (48 ≤ m2.toNat && m2.toNat ≤ 57)

/-- Minutes followed by the `$` anchor.  In Python's `re`, `$` matches at
the end of the string or just before one newline that ends the string, so
the tail after `HH:` must be `MM` or `MM` followed by a single `'\n'`. -/
def minTail : List Char → Bool
  | [m1, m2] => minOk m1 m2
  | [m1, m2, c] => minOk m1 m2 && c = '\n'
  | _ => false

/-- Compiled form of `re.match(r'^([0-1]?[0-9]|2[0-3]):[0-5][0-9]$', s)`.

The match is deterministic: the hour alternation is followed by a literal
`:` which no hour character can be, so a string can take the one-digit
route only when its second character is `:` and the two-digit route only
when its third character is `:`, never both. -/
def timeRe : List Char → Bool
  | a :: b :: rest =>
    if b = ':' then hour1 a && minTail rest
    else
      match rest with
      | c :: rest2 => if c = ':' then hour2 a b && minTail rest2 else false
      | [] => false
  | _ => false

/-- Model of `PickleballSearcher._validate_time`. -/
def _validate_time (s : String) : Bool := timeRe s.data

/-! ## Price normalization (`_parse_price`) -/

/-- The substitution `re.sub(r'[^\d,.]', '', s)`: keep only digits,
commas and dots. -/
def stripPriceChars (s : String) : String :=
  String.mk (s.data.filter (fun c => isAsciiDigit c || c = ',' || c = '.'))

/-- The French-format step: if a comma is present and no dot is,
replace every comma by a dot (`cleaned.replace(',', '.')`). -/
def commaToDot (s : String) : String :=
  if s.data.contains ',' && !(s.data.contains '.') then
    String.mk (s.data.map (fun c => if c = ',' then '.' else c))
  else s

/-- Python `float()` restricted to the alphabet `_parse_price` can feed it
(digits, commas, dots): it succeeds iff the string contains no comma, at
most one dot, and at least one digit, and its value is the literal's
exact rational value.  (The IEEE-754 rounding of `float` is modelled as
exact; no claim exercises the difference.) -/
def pyFloatOfString (s : String) : Option Rat :=
  let l := s.data
  if l.all (fun c => isAsciiDigit c || c = '.') && l.count '.' ≤ 1 &&
      l.any isAsciiDigit then
    match splitOnSep '.' l with
    | [ip] => some (((digitsVal ip : Nat) : Int) : Rat)
    | [ip, fp] =>
      some (mkRat ((digitsVal ip * 10 ^ fp.length + digitsVal fp : Nat) : Int)
        (10 ^ fp.length))
    | _ => none
  else none

/-- Round `(100 * n) / d` (denominator `d > 0`) to the nearest integer,
ties to even — the rounding performed by `format(x, '.2f')`, carried out
on the scaled exact rational in integer arithmetic (`f` is the floor,
`rem / d` the fractional part). -/
def roundCentsHalfEven (n d : Int) : Int :=
  let t : Int := 100 * n
  let f : Int := t.fdiv d
  let rem : Int := t - f * d
  if 2 * rem < d then f
  else if d < 2 * rem then f + 1
  else if f % 2 = 0 then f else f + 1

/-- The formatting `f"{x:.2f}"` on an exact rational. -/
def formatF2 (q : Rat) : String :=
  let n : Int := roundCentsHalfEven q.num (q.den : Int)
  let sign := if q.num < 0 then "-" else ""
  let a := n.natAbs
  sign ++ toString (a / 100) ++ "." ++
    (if a % 100 < 10 then "0" else "") ++ toString (a % 100)

/-- Model of `PickleballSearcher._parse_price`.  The argument is
`Option String`: `none` models passing Python `None` (falsy, so it takes
the `"0.00"` early return, as does the empty string). -/
def _parse_price : Option String → String
  | none => "0.00"
  | some s =>
    if s = "" then "0.00"
    else
      let cleaned := commaToDot (stripPriceChars s)
      match pyFloatOfString cleaned with
      | some q => formatF2 q
      | none => "0.00"

/-! ## Python dynamic operations used by `_parse_api_response` -/

/-- Value stored for key `k` in a Python dict built by `json.loads`:
with duplicate JSON keys the last occurrence wins. -/
def lookupLast (fs : List (String × Json)) (k : String) : Option Json :=
  match fs with
  | [] => none
  | (k1, v) :: rest =>
    match lookupLast rest k with
    | some r => some r
    | none => if k1 = k then some v else none

/-- Python `x.get(k, default)`: the stored value (even if `None`) when the
key is present, the default when absent, and an `AttributeError` when `x`
is not a dict. -/
def pyGet (j : Json) (k : String) (dflt : Json) : Except Unit Json :=
  match j with
  | .obj fs => .ok ((lookupLast fs k).getD dflt)
  | _ => .error ()

/-- Python truthiness `bool(x)` of a JSON-decoded value. -/
def pyTruthy : Json → Bool
  | .null => false
  | .bool b => b
  | .num q => !(q = 0)
  | .str s => !(s = "")
  | .arr xs => !xs.isEmpty
  | .obj fs => !fs.isEmpty

/-- Keys of a dict in first-insertion order (what `for k in d` yields). -/
def objKeys : List (String × Json) → List String
  | [] => []
  | (k, _) :: rest => k :: (objKeys rest).filter (fun k2 => !(k2 = k))

/-- Python iteration `for item in x`: list elements, string characters
(as one-character strings), dict keys; a `TypeError` otherwise. -/
def pyIter : Json → Except Unit (List Json)
  | .arr xs => .ok xs
  | .str s => .ok (s.data.map (fun c => .str (String.mk [c])))
  | .obj fs => .ok ((objKeys fs).map .str)
  | _ => .error ()

/-- Python `x[0]` as used on the truthy `boroughs` value: first list
element, first character of a string, and an exception (`KeyError` /
`TypeError` / `IndexError`) otherwise — JSON object keys are strings, so
`d[0]` on a decoded dict always raises `KeyError`. -/
def pyIndex0 : Json → Except Unit Json
  | .arr (x :: _) => .ok x
  | .str s =>
    match s.data with
    | c :: _ => .ok (.str (String.mk [c]))
    | [] => .error ()
  | _ => .error ()

/-- Python `f"{x:.2f}"`: works on numbers and bools (bools format as
`1.00` / `0.00`), raises on any other type. -/
def pyFormat2f : Json → Except Unit String
  | .num q => .ok (formatF2 q)
  | .bool b => .ok (if b then "1.00" else "0.00")
  | _ => .error ()

/-! ## Timestamp extraction inside `_parse_api_response` -/

/-- Validity of the `YYYY-MM-DD` date part accepted by
`datetime.fromisoformat`. -/
def isoDateOk (l : List Char) : Bool :=
  match l with
  | [y1, y2, y3, y4, s1, m1, m2, s2, d1, d2] =>
    s1 = '-' && s2 = '-' &&
    [y1, y2, y3, y4, m1, m2, d1, d2].all isAsciiDigit &&
    (let y := digitsVal [y1, y2, y3, y4]
     let m := digitsVal [m1, m2]
     let d := digitsVal [d1, d2]
     1 ≤ y && 1 ≤ m && m ≤ 12 && 1 ≤ d && d ≤ daysInMonth y m)
  | _ => false

/-- Optional fraction `.fff` or `.ffffff` after the seconds. -/
def isoFrac : List Char → Option (List Char)
  | '.' :: rest =>
    let (ds, r) := takeDigits rest
    if ds.length = 3 || ds.length = 6 then some r else none
  | l => some l

/-- Optional `:SS[.ffffff]` after the minutes. -/
def isoSeconds : List Char → Option (List Char)
  | ':' :: s1 :: s2 :: rest =>
    if isAsciiDigit s1 && isAsciiDigit s2 && digitsVal [s1, s2] ≤ 59 then
      isoFrac rest
    else none
  | ':' :: _ => none
  | [] => some []
  | l => some l

/-- Optional UTC-offset suffix `±HH:MM[:SS[.ffffff]]`.  The offset is
parsed for well-formedness only: the source immediately drops it with
`dt.replace(tzinfo=None)`. -/
def isoOffset : List Char → Bool
  | [] => true
  | sgn :: h1 :: h2 :: ':' :: m1 :: m2 :: rest =>
    (sgn = '+' || sgn = '-') &&
    [h1, h2, m1, m2].all isAsciiDigit &&
    digitsVal [h1, h2] ≤ 23 && digitsVal [m1, m2] ≤ 59 &&
    (match rest with
     | [] => true
     | ':' :: s1 :: s2 :: rest2 =>
       isAsciiDigit s1 && isAsciiDigit s2 && digitsVal [s1, s2] ≤ 59 &&
       isoFrac rest2 = some []
     | _ => false)
  | _ => false

/-- Model of `datetime.fromisoformat` restricted to what the source needs:
the wall-clock hour and minute of the parsed (offset-stripped) datetime.
Accepts `YYYY-MM-DD`, optionally `T`/space, `HH:MM`, optional seconds and
fraction, optional offset (CPython ≤ 3.10 grammar; no claim depends on
this helper's acceptance set). -/
def isoHM (s : String) : Option (Nat × Nat) :=
  let l := s.data
  if isoDateOk (l.take 10) then
    match l.drop 10 with
    | [] => some (0, 0)
    | sep :: t =>
      if sep = 'T' || sep = ' ' then
        match t with
        | h1 :: h2 :: ':' :: mi1 :: mi2 :: rest =>
          let hh := digitsVal [h1, h2]
          let mm := digitsVal [mi1, mi2]
          if [h1, h2, mi1, mi2].all isAsciiDigit && hh ≤ 23 && mm ≤ 59 then
            match isoSeconds rest with
            | some rest2 => if isoOffset rest2 then some (hh, mm) else none
            | none => none
          else none
        | _ => none
      else none
  else none

/-- Zero-padded two-digit rendering (`%H` / `%M`). -/
def pad2 (n : Nat) : String := (if n < 10 then "0" else "") ++ toString n

/-- The conversion `(dt.replace(tzinfo=None) - timedelta(hours=4)).strftime('%H:%M')`:
subtract four hours from the wall-clock time, modulo one day. -/
def shiftedHM (h m : Nat) : String :=
  let t := (h * 60 + m + 1200) % 1440
  pad2 (t / 60) ++ ":" ++ pad2 (t % 60)

/-- The guarded time-extraction block of `_parse_api_response`: keep
`'Unknown'` unless the field is truthy and the inner `try` succeeds; the
bare inner `except` swallows every failure (including `.replace` on a
non-string). -/
def extractTime (sdt : Json) : String :=
  if pyTruthy sdt then
    match sdt with
    | .str s =>
      match isoHM (s.replace "Z" "+00:00") with
      | some (h, m) => shiftedHM h m
      | none => "Unknown"
    | _ => "Unknown"
  else "Unknown"

/-! ## `_parse_api_response` -/

/-- The output record built for each response item (`court_info` in the
source).  Fields copied from the response keep their dynamic `Json` type. -/
structure Court where
  name : Json
  location : Json
  borough : Json
  date : String
  start_time : String
  end_time : String
  price : String
  currency : String
  can_reserve : Json
  reservation_id : Json

/-- The body of one iteration of the `for item in results` loop.
`.error ()` means the iteration raised (escaping to the outer
`except` of `_parse_api_response`). -/
def processItem (item : Json) (date_iso : String) : Except Unit Court := do
  let facility ← pyGet item "facility" (.obj [])
  let facility_name ← pyGet facility "name" (.str "Unknown Court")
  let site ← pyGet facility "site" (.obj [])
  let location_name ← pyGet site "name" (.str "Unknown Location")
  let boroughs ← pyGet site "boroughs" (.arr [])
  let borough_name ←
    if pyTruthy boroughs then do
      let b0 ← pyIndex0 boroughs
      pyGet b0 "name" (.str "Unknown Borough")
    else pure (.str "Unknown Borough")
  let start_datetime ← pyGet item "startDateTime" (.str "")
  let end_datetime ← pyGet item "endDateTime" (.str "")
  let start_time := extractTime start_datetime
  let end_time := extractTime end_datetime
  let total_price ← pyGet item "totalPrice" (.num 0)
  let price ← pyFormat2f total_price
  let can_reserve_obj ← pyGet item "canReserve" (.obj [])
  let can_reserve : Json :=
    match can_reserve_obj with
    | .obj fs => (lookupLast fs "value").getD (.bool true)
    | other => .bool (pyTruthy other)
  let fallback ← pyGet item "facilityPricingId" .null
  let reservation_id ← pyGet item "facilityScheduleId" fallback
  pure { name := facility_name, location := location_name,
         borough := borough_name, date := date_iso,
         start_time := start_time, end_time := end_time,
         price := price, currency := "CAD",
         can_reserve := can_reserve, reservation_id := reservation_id }

/-- The `for` loop with the `courts` accumulator: on the first raising
item the exception escapes to the outer `except`, which logs and falls
through to `return courts` — so the records accumulated so far are
returned. -/
def parseLoop (items : List Json) (date_iso : String) (acc : List Court) :
    List Court :=
  match items with
  | [] => acc.reverse
  | i :: rest =>
    match processItem i date_iso with
    | .ok c => parseLoop rest date_iso (c :: acc)
    | .error _ => acc.reverse

/-- The prologue of the `try` block: `response_data.get('results', [])`
followed by starting the iteration. -/
def getResultsList (response_data : Json) : Except Unit (List Json) := do
  let r ← pyGet response_data "results" (.arr [])
  pyIter r

/-- Model of `PickleballSearcher._parse_api_response`: if even the
prologue raises, `courts` is still empty and the empty list is returned;
otherwise the loop runs until completion or its first exception. -/
def _parse_api_response (response_data : Json) (date_iso : String) :
    List Court :=
  match getResultsList response_data with
  | .error _ => []
  | .ok items => parseLoop items date_iso []

/-! ## `search_pickleball_courts` -/

/-- Observable outcomes of the transport phase
(`session.post` + `response.raise_for_status()`), as the source's
`except` clauses distinguish them:

* `timeout` — `requests.exceptions.Timeout` was raised;
* `connectionError` — `requests.exceptions.ConnectionError` was raised;
* `httpStatusError code` — `raise_for_status` raised
  `requests.exceptions.HTTPError` (the HTTP status was not OK); `code` is
  `e.response.status_code`, `none` when `e.response` is absent;
* `otherException msg` — any other exception inside the `try` block
  (`str(e)` is `msg`);
* `okBody text` — the request succeeded and `response.text` is `text`. -/
inductive Transport where
  | timeout : Transport
  | connectionError : Transport
  | httpStatusError (code : Option Nat) : Transport
  | otherException (msg : String) : Transport
  | okBody (text : String) : Transport

/-- The `search_params` sub-dictionary of every envelope. -/
structure SearchParams where
  date : String
  time : String
  boroughs : String
deriving DecidableEq

/-- The envelope dictionary returned by `search_pickleball_courts`.
The optional keys `error_type` and `api_response_time` are `Option`
fields (`none` models key absence). -/
structure Envelope where
  search_params : SearchParams
  results : List Court
  total_found : Nat
  status : String
  message : String
  error_type : Option String
  api_response_time : Option String

/-- The borough list constant `DEFAULT_BOROUGHS`. -/
def DEFAULT_BOROUGHS : String := "9,2,19,1,8"

/-- An error envelope as built by every `return` in the error paths. -/
def errEnvelope (p : SearchParams) (msg : String) (etype : String) :
    Envelope :=
  { search_params := p, results := [], total_found := 0, status := "error",
    message := msg, error_type := some etype, api_response_time := none }

/-- Strict `date` comparison of `datetime.date` values `(y, m, d)`:
field-lexicographic. -/
def dateLt : Nat × Nat × Nat → Nat × Nat × Nat → Bool
  | (y1, m1, d1), (y2, m2, d2) =>
    y1 < y2 || (y1 = y2 && (m1 < m2 || (m1 = m2 && d1 < d2)))

/-- The BOM handling: `if response_text.startswith('\uFEFF'):
response_text = response_text[1:]` — drop exactly one leading
byte-order-mark character. -/
def stripBom (s : String) : String :=
  match s.data with
  | c :: rest => if c = '\uFEFF' then String.mk rest else s
  | [] => s

/-- The tail of the `try` block on a successful request: strip a possible
BOM, `json.loads`, normalize, and build the success envelope (or the
`json.JSONDecodeError` error envelope). -/
def bodyCase (p : SearchParams) (date_iso : String) (elapsed : String)
    (text : String) : Envelope :=
  match jsonLoads (stripBom text) with
  | none => errEnvelope p "Invalid API response format" "api_error"
  | some response_data =>
    match _parse_api_response response_data date_iso with
    | [] =>
      { search_params := p, results := [], total_found := 0,
        status := "success",
        message := "No available courts found for the specified date and time",
        error_type := none, api_response_time := some elapsed }
    | c :: cs =>
      { search_params := p, results := c :: cs,
        total_found := (c :: cs).length, status := "success",
        message := "Found " ++ toString (c :: cs).length ++
          " available courts",
        error_type := none, api_response_time := some elapsed }

/-- Model of `PickleballSearcher.search_pickleball_courts`.

`today` is `datetime.now().date()` and `elapsed` the formatted
`api_response_time` string, both passed explicitly since the embedding is
pure.  The source calls `_validate_date` and later re-parses the date
with the same `strptime` format; the single `match` below does both at
once (`_validate_date s = (strptimeYmd s).isSome` definitionally). -/
def search_pickleball_courts (date_iso : String) (time_24h : String)
    (today : Nat × Nat × Nat) (transport : Transport) (elapsed : String) :
    Envelope :=
  let p : SearchParams :=
    { date := date_iso, time := time_24h, boroughs := DEFAULT_BOROUGHS }
  match strptimeYmd date_iso with
  | none =>
    errEnvelope p
      ("Invalid date format: " ++ date_iso ++ ". Expected YYYY-MM-DD")
      "invalid_input"
  | some search_date =>
    if !(_validate_time time_24h) then
      errEnvelope p
        ("Invalid time format: " ++ time_24h ++ ". Expected HH:MM")
        "invalid_input"
    else if dateLt search_date today then
      errEnvelope p ("Cannot search for past dates: " ++ date_iso)
        "invalid_input"
    else
      match transport with
      | .timeout =>
        errEnvelope p "Request timeout after 30 seconds" "network_error"
      | .connectionError =>
        errEnvelope p
          "Network connection error. Please check your internet connection."
          "network_error"
      | .httpStatusError code =>
        errEnvelope p
          ("API request failed with status " ++
            (match code with
             | some n => toString n
             | none => "Unknown"))
          "api_error"
      | .otherException msg =>
        errEnvelope p ("Unexpected error: " ++ msg) "api_error"
      | .okBody text => bodyCase p date_iso elapsed text

/-! ## Specification-side predicates

The following definitions are written from the words of the claims (not
from the source); they exist to be compared with the source-derived
functions above. -/

/-- Claim C3's stated date shape: exactly `YYYY-MM-DD` — four-digit year,
two-digit month, two-digit day — denoting a real calendar date. -/
def claimedExactDate (s : String) : Bool :=
  match s.data with
  | [y1, y2, y3, y4, h1, m1, m2, h2, d1, d2] =>
    h1 = '-' && h2 = '-' &&
    [y1, y2, y3, y4, m1, m2, d1, d2].all isAsciiDigit &&
    (let y := digitsVal [y1, y2, y3, y4]
     let m := digitsVal [m1, m2]
     let d := digitsVal [d1, d2]
     1 ≤ y && 1 ≤ m && m ≤ 12 && 1 ≤ d && d ≤ daysInMonth y m)
  | _ => false

/-- A one- or two-digit numeric token with value between 1 and `hi`
(amended claim C3's month/day tokens). -/
def numToken (t : List Char) (hi : Nat) : Bool :=
  !t.isEmpty && t.length ≤ 2 && t.all isAsciiDigit &&
  1 ≤ digitsVal t && digitsVal t ≤ hi

/-- Amended claim C3's date shape: `Y-M-D` with a four-digit year (value
at least 1), a one- or two-digit month 1–12 and a one- or two-digit day
1–31 denoting a real calendar date. -/
def amendedDateSpec (s : String) : Bool :=
  match splitOnSep '-' s.data with
  | [ys, ms, ds] =>
    yearOk ys && 1 ≤ digitsVal ys && numToken ms 12 && numToken ds 31 &&
    digitsVal ds ≤ daysInMonth (digitsVal ys) (digitsVal ms)
  | _ => false

/-- A two-digit minute field with value at most 59 (value form). -/
def minuteVals (m1 m2 : Char) : Bool :=
  isAsciiDigit m1 && isAsciiDigit m2 && 10 * digitVal m1 + digitVal m2 ≤ 59

/-- Claim C4's stated time shape: the entire string is `H:MM` or `HH:MM`
with hour value at most 23 and minute value at most 59 — nothing before
or after. -/
def claimedTimeSpec (s : String) : Bool :=
  match s.data with
  | [a, b, m1, m2] => b = ':' && isAsciiDigit a && minuteVals m1 m2
  | [a, b, c, m1, m2] =>
    c = ':' && isAsciiDigit a && isAsciiDigit b &&
    10 * digitVal a + digitVal b ≤ 23 && minuteVals m1 m2
  | _ => false

/-- Amended claim C4's minute tail: `MM`, optionally followed by exactly
one newline that ends the string (value form). -/
def specMinTail : List Char → Bool
  | [m1, m2] => minuteVals m1 m2
  | [m1, m2, c] => minuteVals m1 m2 && c = '\n'
  | _ => false

/-- Amended claim C4's time shape: an `H:MM` or `HH:MM` time (hour value
at most 23, minute value at most 59), optionally followed by exactly one
trailing newline character. -/
def amendedTimeSpec (s : String) : Bool :=
  match s.data with
  | a :: b :: rest =>
    if b = ':' then isAsciiDigit a && specMinTail rest
    else
      match rest with
      | c :: rest2 =>
        if c = ':' then
          isAsciiDigit a && isAsciiDigit b &&
          10 * digitVal a + digitVal b ≤ 23 && specMinTail rest2
        else false
      | [] => false
  | _ => false

/-- Records produced by a run of the item loop in which no item raises
(`none` when some item raises). -/
def processedAll (items : List Json) (d : String) : Option (List Court) :=
  match items with
  | [] => some []
  | i :: rest =>
    match processItem i d with
    | .ok c => (processedAll rest d).map (fun cs => c :: cs)
    | .error _ => none

/-- Response data exhibiting a well-formed item followed by an item whose
processing raises (`"%.2f"` applied to a string `totalPrice`). -/
def partialRespData : Json :=
  .obj [("results", .arr [.obj [], .obj [("totalPrice", .str "x")]])]

/-- The same response as `partialRespData`, as a raw body text. -/
def partialRespBody : String :=
  "\x7b\"results\": [\x7b\x7d, \x7b\"totalPrice\": \"x\"\x7d]\x7d"

/-! ## Helper lemmas: regex patterns versus value conditions -/

lemma hour1_eq (a : Char) : hour1 a = isAsciiDigit a := rfl

lemma hour2_eq (a b : Char) :
    hour2 a b = (isAsciiDigit a && isAsciiDigit b &&
      decide (10 * digitVal a + digitVal b ≤ 23)) := by
  unfold hour2 isAsciiDigit digitVal
  rw [Bool.eq_iff_iff]
  simp only [Bool.and_eq_true, Bool.or_eq_true, decide_eq_true_eq]
  omega

lemma minOk_eq (m1 m2 : Char) : minOk m1 m2 = minuteVals m1 m2 := by
  unfold minOk minuteVals isAsciiDigit digitVal
  rw [Bool.eq_iff_iff]
  simp only [Bool.and_eq_true, decide_eq_true_eq]
  omega

lemma minTail_eq : ∀ l : List Char, minTail l = specMinTail l
  | [] => rfl
  | [_] => rfl
  | [m1, m2] => minOk_eq m1 m2
  | [m1, m2, c] => by
    rw [show minTail [m1, m2, c] = (minOk m1 m2 && decide (c = '\n')) from rfl,
      show specMinTail [m1, m2, c] =
        (minuteVals m1 m2 && decide (c = '\n')) from rfl,
      minOk_eq]
  | _ :: _ :: _ :: _ :: _ => rfl

lemma digitsVal_one (a : Char) : digitsVal [a] = digitVal a := by
  simp [digitsVal, List.foldl]

lemma digitsVal_two (a b : Char) :
    digitsVal [a, b] = 10 * digitVal a + digitVal b := by
  simp [digitsVal, List.foldl]
  try ring

lemma matchMonth_eq (ms : List Char) :
    matchMonth ms = if numToken ms 12 then some (digitsVal ms) else none := by
  match ms with
  | [] => rfl
  | [a] =>
    simp only [matchMonth, numToken, digitsVal_one, isAsciiDigit, digitVal,
      List.isEmpty_cons, List.length_cons, List.length_nil, List.all_cons,
      List.all_nil, Bool.not_false, Bool.and_true, Bool.true_and]
    split_ifs
    all_goals (try simp only [Bool.and_eq_true, decide_eq_true_eq,
      Option.some.injEq, Bool.not_eq_true, Bool.and_eq_false_iff,
      decide_eq_false_iff_not] at *)
    all_goals omega
  | [a, b] =>
    simp only [matchMonth, numToken, digitsVal_two, isAsciiDigit, digitVal,
      List.isEmpty_cons, List.length_cons, List.length_nil, List.all_cons,
      List.all_nil, Bool.not_false, Bool.and_true, Bool.true_and]
    split_ifs
    all_goals (try simp only [Bool.and_eq_true, decide_eq_true_eq,
      Option.some.injEq, Bool.not_eq_true, Bool.and_eq_false_iff,
      decide_eq_false_iff_not] at *)
    all_goals omega
  | _ :: _ :: _ :: _ => rfl

lemma matchDay_eq (ds : List Char) :
    matchDay ds = if numToken ds 31 then some (digitsVal ds) else none := by
  match ds with
  | [] => rfl
  | [a] =>
    simp only [matchDay, numToken, digitsVal_one, isAsciiDigit, digitVal,
      List.isEmpty_cons, List.length_cons, List.length_nil, List.all_cons,
      List.all_nil, Bool.not_false, Bool.and_true, Bool.true_and]
    split_ifs
    all_goals (try simp only [Bool.and_eq_true, decide_eq_true_eq,
      Option.some.injEq, Bool.not_eq_true, Bool.and_eq_false_iff,
      decide_eq_false_iff_not] at *)
    all_goals omega
  | [a, b] =>
    simp only [matchDay, numToken, digitsVal_two, isAsciiDigit, digitVal,
      List.isEmpty_cons, List.length_cons, List.length_nil, List.all_cons,
      List.all_nil, Bool.not_false, Bool.and_true, Bool.true_and]
    split_ifs
    all_goals (try simp only [Bool.and_eq_true, decide_eq_true_eq,
      Option.some.injEq, Bool.not_eq_true, Bool.and_eq_false_iff,
      decide_eq_false_iff_not] at *)
    all_goals omega
  | _ :: _ :: _ :: _ => rfl

lemma validate_date_eq_amended (s : String) :
    _validate_date s = amendedDateSpec s := by
  unfold _validate_date strptimeYmd amendedDateSpec
  match hsp : splitOnSep '-' s.data with
  | [] => rfl
  | [ys] => rfl
  | [ys, ms] => rfl
  | [ys, ms, ds] =>
    dsimp only
    rw [matchMonth_eq, matchDay_eq]
    by_cases hy : yearOk ys
    · simp only [if_pos hy, hy, Bool.true_and]
      by_cases hm : numToken ms 12 <;> by_cases hd : numToken ds 31
      all_goals simp [hm, hd]
      all_goals split_ifs <;> simp_all
    · simp [hy]
  | ys :: ms :: ds :: x :: rest => rfl

/-! ## Claims C3 and C4 -/

/-- Claim C3 is false as stated: `_validate_date` accepts `"2025-2-28"`,
a string that is a real calendar date but not in the exact `YYYY-MM-DD`
shape (`claimedExactDate` is the claim's stated acceptance set). -/
theorem C3_counterexample :
    _validate_date "2025-2-28" = true ∧
    claimedExactDate "2025-2-28" = false := by
  decide

/-- Amended claim C3: `_validate_date s` is true iff `s` is `Y-M-D` with a
four-digit year of value at least 1, a one- or two-digit month 1–12 and a
one- or two-digit day denoting a real calendar date; in particular it is
false for `"2025-02-30"` and true for the two-digit form `"2025-02-28"`. -/
theorem C3_amended_claim :
    (∀ s, _validate_date s = amendedDateSpec s) ∧
    _validate_date "2025-02-30" = false ∧
    _validate_date "2025-02-28" = true :=
  ⟨validate_date_eq_amended, by decide, by decide⟩

/-- Claim C4 is false as stated: `_validate_time` accepts `"17:00\n"`,
which has a trailing newline after the `HH:MM` time (`claimedTimeSpec` is
the claim's stated acceptance set) — Python's `$` anchor matches before a
string-final newline. -/
theorem C4_counterexample :
    _validate_time "17:00\n" = true ∧
    claimedTimeSpec "17:00\n" = false := by
  decide

/-- Amended claim C4: `_validate_time s` is true iff `s` is `H:MM` or
`HH:MM` (hour 0–23, minute 0–59, optionally single-digit hour) optionally
followed by exactly one trailing newline character. -/
theorem C4_amended_claim (s : String) :
    _validate_time s = amendedTimeSpec s := by
  unfold _validate_time timeRe amendedTimeSpec
  match s.data with
  | [] => rfl
  | [a] => rfl
  | a :: b :: rest =>
    by_cases hb : b = ':'
    · subst hb
      simp [hour1_eq, minTail_eq]
    · simp only [if_neg hb]
      match rest with
      | [] => rfl
      | c :: rest2 =>
        by_cases hc : c = ':'
        · subst hc
          simp [hour2_eq, minTail_eq, Bool.and_assoc]
        · simp only [if_neg hc]


/-! ## Claim C5 -/

/-- Claim C5: the seven stated price normalizations hold, and in general
`_parse_price` keeps only digits, commas and dots (clause 8), returns
`"0.00"` on empty/absent input or when the numeric parse of the cleaned,
comma-normalized string fails (clauses 3, 4 and 9), and otherwise formats
the parsed value to two decimals (clause 10). -/
theorem C5_claim :
    _parse_price (some "8,10 $") = "8.10" ∧
    _parse_price (some "10,50 CAD") = "10.50" ∧
    _parse_price (some "") = "0.00" ∧
    _parse_price none = "0.00" ∧
    _parse_price (some "Free") = "0.00" ∧
    _parse_price (some "12,00") = "12.00" ∧
    _parse_price (some "8.10") = "8.10" ∧
    (∀ s, ∀ c ∈ (stripPriceChars s).data,
      (isAsciiDigit c || c = ',' || c = '.') = true) ∧
    (∀ s, pyFloatOfString (commaToDot (stripPriceChars s)) = none →
      _parse_price (some s) = "0.00") ∧
    (∀ s q, pyFloatOfString (commaToDot (stripPriceChars s)) = some q →
      s ≠ "" → _parse_price (some s) = formatF2 q) := by
  refine ⟨by decide, by decide, by decide, by decide, by decide, by decide,
    by decide, ?_, ?_, ?_⟩
  · intro s c hc
    have h2 : c ∈ s.data ∧ (isAsciiDigit c || c = ',' || c = '.') = true := by
      simpa [stripPriceChars, List.mem_filter] using hc
    simpa using h2.2
  · intro s h
    unfold _parse_price
    by_cases hs : s = ""
    · simp [hs]
    · simp only [if_neg hs, h]
  · intro s q h hs
    unfold _parse_price
    simp only [if_neg hs, h]

/-- Witness for C5's general clauses: a failing numeric parse yields
`"0.00"`, and a successful one formats the parsed value. -/
theorem C5_witness :
    _parse_price (some "abc,,9") = "0.00" ∧
    _parse_price (some "7,25 $ CAD") = formatF2 (mkRat 725 100) :=
  ⟨C5_claim.2.2.2.2.2.2.2.2.1 "abc,,9" (by decide),
   C5_claim.2.2.2.2.2.2.2.2.2 "7,25 $ CAD" (mkRat 725 100) (by decide)
     (by decide)⟩

/-! ## Claims C2 and C10: the response normalizer -/

lemma processItem_ok_fields (item : Json) (d : String) (c : Court)
    (h : processItem item d = .ok c) : c.currency = "CAD" ∧ c.date = d := by
  unfold processItem at h
  simp only [bind, Except.bind, pure, Except.pure] at h
  repeat' split at h
  all_goals simp_all
  all_goals (cases h; exact ⟨rfl, rfl⟩)

lemma parseLoop_stops (d : String) (bad : Json)
    (hbad : processItem bad d = .error ()) :
    ∀ (pre : List Json) (cs : List Court) (acc : List Court)
      (rest : List Json), processedAll pre d = some cs →
      parseLoop (pre ++ bad :: rest) d acc = acc.reverse ++ cs := by
  intro pre
  induction pre with
  | nil =>
    intro cs acc rest hcs
    rw [show processedAll [] d = some [] from rfl] at hcs
    cases hcs
    rw [List.nil_append, parseLoop, hbad, List.append_nil]
  | cons i pre ih =>
    intro cs acc rest hcs
    rw [processedAll] at hcs
    split at hcs
    · next c0 heq =>
      rcases Option.map_eq_some'.mp hcs with ⟨cs0, hcs0, rfl⟩
      rw [List.cons_append, parseLoop, heq]
      dsimp only
      rw [ih cs0 (c0 :: acc) rest hcs0]
      simp
    · cases hcs

/-- Claim C2 is false as stated: on a response whose second item raises
during processing (a string `totalPrice` fails the `"%.2f"` format), the
first, well-formed item's record is kept — `_parse_api_response` returns
a partial list of length 1, not the empty list.  (The claim's other half
holds: the call still yields a `"success"` envelope, here with
`total_found = 1`.) -/
theorem C2_counterexample :
    (processItem (Json.obj []) "2025-06-20").isOk = true ∧
    (processItem (Json.obj [("totalPrice", Json.str "x")]) "2025-06-20").isOk
      = false ∧
    (_parse_api_response partialRespData "2025-06-20").length = 1 ∧
    (search_pickleball_courts "2025-06-20" "17:00" (2025, 6, 20)
      (.okBody partialRespBody) "0.1s").status = "success" ∧
    (search_pickleball_courts "2025-06-20" "17:00" (2025, 6, 20)
      (.okBody partialRespBody) "0.1s").total_found = 1 :=
  ⟨by decide, by decide, by decide, by decide, by decide⟩

/-- Amended claim C2: when per-item processing raises at some item,
`_parse_api_response` returns exactly the records built from the items
processed before the exception (a partial list — the `courts` accumulator
lives outside the `try` and `return courts` runs after the `except`);
and the call still produces a status `"success"` envelope whenever the
body decodes. -/
theorem C2_amended_claim :
    (∀ (d : String) (pre : List Json) (bad : Json) (rest : List Json)
      (cs : List Court), processedAll pre d = some cs →
      processItem bad d = .error () →
      _parse_api_response (.obj [("results", .arr (pre ++ bad :: rest))]) d
        = cs) ∧
    (∀ (d t el text : String) (today sd : Nat × Nat × Nat) (rd : Json),
      strptimeYmd d = some sd → _validate_time t = true →
      dateLt sd today = false → jsonLoads (stripBom text) = some rd →
      (search_pickleball_courts d t today (.okBody text) el).status
        = "success") := by
  constructor
  · intro d pre bad rest cs hcs hbad
    unfold _parse_api_response getResultsList
    rw [show (pyGet (.obj [("results", .arr (pre ++ bad :: rest))]) "results"
        (.arr [])) = .ok (.arr (pre ++ bad :: rest)) from rfl]
    simp only [bind, Except.bind, pyIter]
    rw [parseLoop_stops d bad hbad pre cs [] rest hcs]
    rfl
  · intro d t el text today sd rd hd ht hp hj
    unfold search_pickleball_courts
    rw [hd]
    simp only [ht, Bool.not_true, Bool.false_eq_true, if_false, hp,
      if_neg (Bool.false_ne_true)]
    unfold bodyCase
    rw [hj]
    dsimp only
    split <;> rfl

/-- Witness for C2: a good item, then the raising item, then a further
item; the result is exactly the one record of the good item. -/
theorem C2_witness :
    _parse_api_response (.obj [("results",
      .arr ([Json.obj []] ++ Json.obj [("totalPrice", Json.str "x")] ::
        [Json.null]))]) "2025-06-20" =
      [{ name := .str "Unknown Court", location := .str "Unknown Location",
         borough := .str "Unknown Borough", date := "2025-06-20",
         start_time := "Unknown", end_time := "Unknown", price := "0.00",
         currency := "CAD", can_reserve := .bool true,
         reservation_id := .null }] :=
  C2_amended_claim.1 "2025-06-20" [Json.obj []]
    (Json.obj [("totalPrice", Json.str "x")]) [Json.null] _ rfl rfl

lemma parseLoop_mem (d : String) (P : Court → Prop)
    (hP : ∀ i c, processItem i d = .ok c → P c) :
    ∀ (items : List Json) (acc : List Court),
      (∀ c ∈ acc, P c) → ∀ c ∈ parseLoop items d acc, P c := by
  intro items
  induction items with
  | nil =>
    intro acc hacc c hc
    rw [parseLoop] at hc
    exact hacc c (List.mem_reverse.mp hc)
  | cons i rest ih =>
    intro acc hacc c hc
    rw [parseLoop] at hc
    split at hc
    · next c0 heq =>
      exact ih (c0 :: acc)
        (by
          intro x hx
          rcases List.mem_cons.mp hx with hx0 | hx1
          · exact hx0 ▸ hP i c0 heq
          · exact hacc x hx1) c hc
    · exact hacc c (List.mem_reverse.mp hc)

/-- Claim C10: every record produced by `_parse_api_response` has
`currency = "CAD"` and `date` equal to the `date_iso` argument, whatever
the response item contained. -/
theorem C10_claim (rd : Json) (d : String) (c : Court)
    (h : c ∈ _parse_api_response rd d) :
    c.currency = "CAD" ∧ c.date = d := by
  unfold _parse_api_response at h
  split at h
  · cases h
  · exact parseLoop_mem d _ (fun i c0 hi => processItem_ok_fields i d c0 hi)
      _ [] (by intro x hx; cases hx) c h

/-- Witness for C10 at a concrete one-item response. -/
theorem C10_witness :
    ({ name := .str "Unknown Court", location := .str "Unknown Location",
       borough := .str "Unknown Borough", date := "2025-06-20",
       start_time := "Unknown", end_time := "Unknown", price := "0.00",
       currency := "CAD", can_reserve := .bool true,
       reservation_id := .null } : Court).currency = "CAD" ∧
    ({ name := .str "Unknown Court", location := .str "Unknown Location",
       borough := .str "Unknown Borough", date := "2025-06-20",
       start_time := "Unknown", end_time := "Unknown", price := "0.00",
       currency := "CAD", can_reserve := .bool true,
       reservation_id := .null } : Court).date = "2025-06-20" :=
  C10_claim (Json.obj [("results", Json.arr [Json.obj []])]) "2025-06-20" _
    (by
      rw [show _parse_api_response
        (Json.obj [("results", Json.arr [Json.obj []])]) "2025-06-20" =
        [{ name := .str "Unknown Court", location := .str "Unknown Location",
           borough := .str "Unknown Borough", date := "2025-06-20",
           start_time := "Unknown", end_time := "Unknown", price := "0.00",
           currency := "CAD", can_reserve := .bool true,
           reservation_id := .null }] from rfl]
      exact List.mem_singleton.mpr rfl)

/-! ## Claim C1: the envelope invariant -/

/-- Claim C1 is false as stated: on a successful call whose backend
response decodes to an empty object, the envelope has status
`"success"`, no `error_type`, and an empty `results` list — so
"`status = "error"` iff `results` empty" fails. -/
theorem C1_counterexample :
    (search_pickleball_courts "2025-06-20" "17:00" (2025, 6, 20)
      (.okBody "\x7b\x7d") "0.1s").status = "success" ∧
    (search_pickleball_courts "2025-06-20" "17:00" (2025, 6, 20)
      (.okBody "\x7b\x7d") "0.1s").results.length = 0 ∧
    (search_pickleball_courts "2025-06-20" "17:00" (2025, 6, 20)
      (.okBody "\x7b\x7d") "0.1s").error_type = none ∧
    ¬ ((search_pickleball_courts "2025-06-20" "17:00" (2025, 6, 20)
        (.okBody "\x7b\x7d") "0.1s").status = "error" ↔
      (search_pickleball_courts "2025-06-20" "17:00" (2025, 6, 20)
        (.okBody "\x7b\x7d") "0.1s").results.length = 0) :=
  ⟨by decide, by decide, by decide, by decide⟩

/-- Amended claim C1: in every envelope, `status = "error"` iff
`error_type` is present, and an error envelope always has empty
`results`; but an empty `results` list does not imply an error —
a zero-result success envelope also has `results = []`.  (The status is
always exactly `"error"` or `"success"`.) -/
theorem C1_amended_claim (d t : String) (today : Nat × Nat × Nat)
    (tr : Transport) (el : String) :
    ((search_pickleball_courts d t today tr el).status = "error" ↔
      (search_pickleball_courts d t today tr el).error_type.isSome = true) ∧
    ((search_pickleball_courts d t today tr el).error_type.isSome = true →
      (search_pickleball_courts d t today tr el).results = []) ∧
    ((search_pickleball_courts d t today tr el).status = "error" ∨
      (search_pickleball_courts d t today tr el).status = "success") := by
  unfold search_pickleball_courts bodyCase errEnvelope
  repeat' split
  all_goals dsimp only
  all_goals
    first
    | exact ⟨by decide, fun _ => rfl, by decide⟩
    | exact ⟨by decide, fun h => absurd h (by decide), by decide⟩

/-- Witness for C1's implication at an input that produces an error
envelope. -/
theorem C1_witness :
    (search_pickleball_courts "bad-date" "17:00" (2025, 1, 1)
      .timeout "e").results = [] :=
  (C1_amended_claim "bad-date" "17:00" (2025, 1, 1) .timeout "e").2.1
    (by decide)

/-! ## Claim C6: the error taxonomy -/

/-- Claim C6: every error envelope has empty `results`, `total_found = 0`
and an `error_type` among `invalid_input`, `network_error`, `api_error`
(clause 1); and the classification is as stated: bad date format, bad
time format and past date give `invalid_input` (clauses 2–4), timeout
and connection failure give `network_error` (clauses 5–6), a raised
HTTP-status error, any other exception, and a malformed JSON body give
`api_error` (clauses 7–9), while a decodable body gives a `"success"`
envelope with no `error_type` (clause 10). -/
theorem C6_claim (d t : String) (today : Nat × Nat × Nat) (tr : Transport)
    (el : String) :
    ((search_pickleball_courts d t today tr el).status = "error" →
      (search_pickleball_courts d t today tr el).results = [] ∧
      (search_pickleball_courts d t today tr el).total_found = 0 ∧
      ((search_pickleball_courts d t today tr el).error_type
          = some "invalid_input" ∨
        (search_pickleball_courts d t today tr el).error_type
          = some "network_error" ∨
        (search_pickleball_courts d t today tr el).error_type
          = some "api_error")) ∧
    (strptimeYmd d = none →
      (search_pickleball_courts d t today tr el).status = "error" ∧
      (search_pickleball_courts d t today tr el).error_type
        = some "invalid_input") ∧
    (∀ sd, strptimeYmd d = some sd → _validate_time t = false →
      (search_pickleball_courts d t today tr el).status = "error" ∧
      (search_pickleball_courts d t today tr el).error_type
        = some "invalid_input") ∧
    (∀ sd, strptimeYmd d = some sd → _validate_time t = true →
      dateLt sd today = true →
      (search_pickleball_courts d t today tr el).status = "error" ∧
      (search_pickleball_courts d t today tr el).error_type
        = some "invalid_input") ∧
    (∀ sd, strptimeYmd d = some sd → _validate_time t = true →
      dateLt sd today = false → tr = .timeout →
      (search_pickleball_courts d t today tr el).status = "error" ∧
      (search_pickleball_courts d t today tr el).error_type
        = some "network_error") ∧
    (∀ sd, strptimeYmd d = some sd → _validate_time t = true →
      dateLt sd today = false → tr = .connectionError →
      (search_pickleball_courts d t today tr el).status = "error" ∧
      (search_pickleball_courts d t today tr el).error_type
        = some "network_error") ∧
    (∀ sd code, strptimeYmd d = some sd → _validate_time t = true →
      dateLt sd today = false → tr = .httpStatusError code →
      (search_pickleball_courts d t today tr el).status = "error" ∧
      (search_pickleball_courts d t today tr el).error_type
        = some "api_error") ∧
    (∀ sd msg, strptimeYmd d = some sd → _validate_time t = true →
      dateLt sd today = false → tr = .otherException msg →
      (search_pickleball_courts d t today tr el).status = "error" ∧
      (search_pickleball_courts d t today tr el).error_type
        = some "api_error") ∧
    (∀ sd text, strptimeYmd d = some sd → _validate_time t = true →
      dateLt sd today = false → tr = .okBody text →
      jsonLoads (stripBom text) = none →
      (search_pickleball_courts d t today tr el).status = "error" ∧
      (search_pickleball_courts d t today tr el).error_type
        = some "api_error") ∧
    (∀ sd text, strptimeYmd d = some sd → _validate_time t = true →
      dateLt sd today = false → tr = .okBody text →
      (jsonLoads (stripBom text)).isSome = true →
      (search_pickleball_courts d t today tr el).status = "success" ∧
      (search_pickleball_courts d t today tr el).error_type = none) := by
  refine ⟨?_, ?_, ?_, ?_, ?_, ?_, ?_, ?_, ?_, ?_⟩
  · unfold search_pickleball_courts bodyCase errEnvelope
    repeat' split
    all_goals dsimp only
    all_goals
      first
      | exact fun _ => ⟨rfl, rfl, by decide⟩
      | exact fun h => absurd h (by decide)
  · intro h
    unfold search_pickleball_courts
    rw [h]
    exact ⟨rfl, rfl⟩
  · intro sd hv hf
    unfold search_pickleball_courts
    rw [hv, hf]
    exact ⟨rfl, rfl⟩
  · intro sd hv ht hp
    unfold search_pickleball_courts
    rw [hv, ht]
    dsimp only
    rw [hp]
    exact ⟨rfl, rfl⟩
  · intro sd hv ht hp htr
    subst htr
    unfold search_pickleball_courts
    rw [hv, ht]
    dsimp only
    rw [hp]
    exact ⟨rfl, rfl⟩
  · intro sd hv ht hp htr
    subst htr
    unfold search_pickleball_courts
    rw [hv, ht]
    dsimp only
    rw [hp]
    exact ⟨rfl, rfl⟩
  · intro sd code hv ht hp htr
    subst htr
    unfold search_pickleball_courts
    rw [hv, ht]
    dsimp only
    rw [hp]
    exact ⟨rfl, rfl⟩
  · intro sd msg hv ht hp htr
    subst htr
    unfold search_pickleball_courts
    rw [hv, ht]
    dsimp only
    rw [hp]
    exact ⟨rfl, rfl⟩
  · intro sd text hv ht hp htr hj
    subst htr
    unfold search_pickleball_courts bodyCase
    rw [hv, ht]
    dsimp only
    rw [hp, hj]
    exact ⟨rfl, rfl⟩
  · intro sd text hv ht hp htr hsome
    subst htr
    rcases Option.isSome_iff_exists.mp hsome with ⟨rd, hj⟩
    unfold search_pickleball_courts bodyCase
    rw [hv]
    simp only [ht, hp, hj, Bool.not_true, Bool.false_eq_true, if_false]
    split
    · exact ⟨rfl, rfl⟩
    · exact ⟨rfl, rfl⟩

/-- Witness for C6 at a concrete valid input with a timed-out request. -/
theorem C6_witness :
    (search_pickleball_courts "2025-06-20" "17:00" (2025, 6, 20)
      .timeout "x").status = "error" ∧
    (search_pickleball_courts "2025-06-20" "17:00" (2025, 6, 20)
      .timeout "x").error_type = some "network_error" :=
  (C6_claim "2025-06-20" "17:00" (2025, 6, 20) .timeout
      "x").2.2.2.2.1 (2025, 6, 20) (by decide) (by decide) (by decide) rfl

/-! ## Claim C7: byte-order-mark handling -/

lemma stripBom_bom_append (B : String) : stripBom ("\uFEFF" ++ B) = B := by
  have h : ("\uFEFF" ++ B).data = '\uFEFF' :: B.data := rfl
  unfold stripBom
  rw [h]
  dsimp only
  rw [if_pos rfl]

lemma stripBom_no_bom (B : String) (h : B.data.head? ≠ some '\uFEFF') :
    stripBom B = B := by
  unfold stripBom
  match hB : B.data with
  | [] => rfl
  | c :: rest =>
    dsimp only
    rw [if_neg]
    intro hc
    refine h ?_
    rw [hB, hc]
    rfl

/-- Claim C7 is false as stated: the stripping removes exactly one
leading byte-order-mark, so for a body that itself starts with one
(`B = "\uFEFF0"`), the prefixed run decodes `"\uFEFF0"` (a
`JSONDecodeError`, hence an `api_error` envelope) while the unprefixed
run decodes `"0"` (a success envelope). -/
theorem C7_counterexample :
    (search_pickleball_courts "2025-06-20" "17:00" (2025, 6, 20)
      (.okBody ("\uFEFF" ++ "\uFEFF0")) "t").status = "error" ∧
    (search_pickleball_courts "2025-06-20" "17:00" (2025, 6, 20)
      (.okBody ("\uFEFF" ++ "\uFEFF0")) "t").error_type
      = some "api_error" ∧
    (search_pickleball_courts "2025-06-20" "17:00" (2025, 6, 20)
      (.okBody "\uFEFF0") "t").status = "success" ∧
    (search_pickleball_courts "2025-06-20" "17:00" (2025, 6, 20)
      (.okBody "\uFEFF0") "t").error_type = none :=
  ⟨by decide, by decide, by decide, by decide⟩

/-- Amended claim C7: for every body `B` that does not itself start with
a byte-order-mark, the BOM-prefixed body produces exactly the same
envelope as `B` alone. -/
theorem C7_amended_claim (d t : String) (today : Nat × Nat × Nat)
    (el B : String) (h : B.data.head? ≠ some '\uFEFF') :
    search_pickleball_courts d t today (.okBody ("\uFEFF" ++ B)) el =
      search_pickleball_courts d t today (.okBody B) el := by
  have hs : stripBom ("\uFEFF" ++ B) = stripBom B := by
    rw [stripBom_bom_append, stripBom_no_bom B h]
  have hb : ∀ p, bodyCase p d el ("\uFEFF" ++ B) = bodyCase p d el B := by
    intro p
    unfold bodyCase
    rw [hs]
  unfold search_pickleball_courts
  simp only [hb]

/-- Witness for C7 with the BOM-free body `"0"`. -/
theorem C7_witness :
    search_pickleball_courts "2025-06-20" "17:00" (2025, 6, 20)
      (.okBody ("\uFEFF" ++ "0")) "t" =
    search_pickleball_courts "2025-06-20" "17:00" (2025, 6, 20)
      (.okBody "0") "t" :=
  C7_amended_claim "2025-06-20" "17:00" (2025, 6, 20) "t" "0" (by decide)

/-! ## Claims C8 and C9: determinism and the count invariant -/

/-- Claim C8: with the validation date and the backend outcome fixed,
two invocations differing only in elapsed time produce envelopes whose
fields all agree except possibly `api_response_time` (the only field the
clock flows into). -/
theorem C8_claim (d t : String) (today : Nat × Nat × Nat) (tr : Transport)
    (el1 el2 : String) :
    (search_pickleball_courts d t today tr el1).search_params =
      (search_pickleball_courts d t today tr el2).search_params ∧
    (search_pickleball_courts d t today tr el1).results =
      (search_pickleball_courts d t today tr el2).results ∧
    (search_pickleball_courts d t today tr el1).total_found =
      (search_pickleball_courts d t today tr el2).total_found ∧
    (search_pickleball_courts d t today tr el1).status =
      (search_pickleball_courts d t today tr el2).status ∧
    (search_pickleball_courts d t today tr el1).message =
      (search_pickleball_courts d t today tr el2).message ∧
    (search_pickleball_courts d t today tr el1).error_type =
      (search_pickleball_courts d t today tr el2).error_type := by
  unfold search_pickleball_courts bodyCase
  cases hv : strptimeYmd d with
  | none => and_intros <;> trivial
  | some sd =>
    by_cases ht : _validate_time t
    case neg =>
      simp only [Bool.not_eq_true] at ht
      simp only [ht]
      and_intros <;> trivial
    simp only [ht, Bool.not_true, Bool.false_eq_true, if_false]
    · by_cases hp : dateLt sd today
      · simp only [hp, if_true]
        and_intros <;> trivial
      · simp only [Bool.not_eq_true] at hp
        simp only [hp, Bool.false_eq_true, if_false]
        cases tr with
        | timeout => and_intros <;> trivial
        | connectionError => and_intros <;> trivial
        | httpStatusError code => and_intros <;> trivial
        | otherException msg => and_intros <;> trivial
        | okBody text =>
          try dsimp only
          cases hj : jsonLoads (stripBom text) with
          | none =>
            simp only [hj]
            and_intros <;> trivial
          | some rd =>
            simp only [hj]
            try dsimp only
            cases hpar : _parse_api_response rd d with
            | nil =>
              simp only [hpar]
              and_intros <;> trivial
            | cons c cs =>
              simp only [hpar]
              and_intros <;> trivial

/-- Claim C9: on every branch of `search_pickleball_courts`, the
`total_found` field equals the length of the `results` list. -/
theorem C9_claim (d t : String) (today : Nat × Nat × Nat) (tr : Transport)
    (el : String) :
    (search_pickleball_courts d t today tr el).total_found =
      (search_pickleball_courts d t today tr el).results.length := by
  unfold search_pickleball_courts bodyCase errEnvelope
  repeat' split
  all_goals rfl
